import Mathlib

/-!
Verification of the connection/session core of the Anova4All repository
(`src/anova_wifi/connection.py`, class `AnovaConnection`).

The Python code is shallowly embedded as executable Lean definitions:

* `receive` embeds `AnovaConnection.receive` as a pure function from the
  connection state and the bytes returned by one `reader.read(1024)` call to
  a new state, an `Except`-style outcome (normal return vs. raised
  exception), the log entries emitted, and the events delivered to the
  event callback.
* `listen` embeds the background loop `AnovaConnection._listen`, driven over
  a finite trace of inputs (each element is either one read's bytes or a
  cancellation arriving at the read's await point).
* `step`/`run` give a small-step interleaving semantics for
  `AnovaConnection.send_command` executions concurrently with the receive
  loop.  Each `send_command` coroutine is a `SendProc` whose `SendPhase`
  records the await point it is suspended at; the mutable attribute
  `response_future` is the shared single waiter slot.  `asyncio` primitives
  are modelled by their documented semantics: an `asyncio.Future` is
  `pending`, `resolved v` or `cancelled`; `asyncio.wait_for(fut, t)` on
  timeout cancels `fut` and raises `TimeoutError`; awaiting an
  already-cancelled future raises `CancelledError`; `fut.set_result` is only
  called by `receive` under its `not done()` guard.
* `start_listening` and `close` embed the lifecycle methods
  `AnovaConnection.start_listening` / `AnovaConnection.close`; `close`
  additionally returns the ordered trace of the effects it performs, so that
  ordering claims (cancel, then await the task, then close the stream) are
  visible.

`Encoder.decode` (module `anova_wifi.encoding`) and
`AnovaEvent.is_event` / `AnovaEvent.parse_event` (module `anova_wifi.event`)
are imported by `connection.py` but their sources are not part of the
repository snapshot; they are modelled from the spec as abstract functions
collected in an `Env` (spec sections 4.1 and 4.2: `decode` may fail with a
`DecodeError`, `parse_event` may fail with an `EventParseError`).  The
caller-supplied event callback coroutine is likewise abstract: its behaviour
lives in `Env.callback`, its presence (`self.event_callback is not None`) in
the state field `ConnState.event_callback`.
-/

/-- The Python exceptions that flow through `connection.py`.
`connectionReset` is `ConnectionResetError`, `cancelledError` is
`asyncio.CancelledError`, `timeoutError` is `asyncio.TimeoutError`,
`typeError` is the `TypeError` raised by `await None`; `decodeError`,
`eventParseError` and `callbackError` stand for the exception kinds that
`Encoder.decode`, `AnovaEvent.parse_event` and the caller-supplied event
callback may raise (spec sections 4.1, 4.2, 6). -/
inductive PyError
  | connectionReset
  | decodeError
  | eventParseError
  | callbackError
  | cancelledError
  | timeoutError
  | typeError
deriving DecidableEq, Repr

/-- The log statements `connection.py` emits, one constructor per call site. -/
inductive LogEntry
  | debugSent (cmd : String)
  | warnNoResponseTimeout (cmd : String)
  | debugCancelled
  | debugConnClosedRemote
  | errorInListen (e : PyError)
  | errorConnClosed
  | debugReceived (msg : String)
  | errorInvalidCommandSkipping (msg : String)
  | warnUnexpected (msg : String)
  | infoConnectionClosed
deriving DecidableEq, Repr

/-- Modelled from the spec: `AnovaEvent` (module `anova_wifi.event`, not in
the snapshot) is "a structured value derived from a Decoded Message
classified as an event".  Its internal structure is irrelevant to every
claim, so it is modelled as a wrapper around the message it was parsed
from. -/
structure AnovaEvent where
  raw : String
deriving DecidableEq, Repr

/-- The state of one `asyncio.Future`. -/
inductive FutState
  | pending
  | resolved (v : String)
  | cancelled
deriving DecidableEq, Repr

/-- `Future.done()`: true once resolved or cancelled. -/
def FutState.isDone : FutState → Bool
  | .pending => false
  | .resolved _ => true
  | .cancelled => true

/-- The mutable attributes of an `AnovaConnection` that `receive` and
`send_command` share.  Futures live in a store `futures` indexed by
creation order, so that a future overwritten in the `response_future` slot
keeps its identity; `response_future` holds the index of the future
currently in the slot, or `none` (Python `None`).  `event_callback` records
whether `self.event_callback` is set (its behaviour is `Env.callback`). -/
structure ConnState where
  futures : List FutState
  response_future : Option Nat
  event_callback : Bool
deriving DecidableEq, Repr

/-- The abstract collaborators of `connection.py`, modelled from the spec:
`decode` is `Encoder.decode` (may fail with a decode error on malformed
bytes, spec 4.1), `is_event` and `parse_event` are the event classifier
(`parse_event` may fail on an event-shaped but unparseable message, spec
4.2), and `callback` is the behaviour of the caller-supplied event callback
coroutine (it may raise, spec section 6). -/
structure Env where
  decode : List Nat → Except PyError String
  is_event : String → Bool
  parse_event : String → Except PyError AnovaEvent
  callback : AnovaEvent → Except PyError Unit

/-- Does the character list start with the pattern `pat`? -/
def startsWithChars : List Char → List Char → Bool
  | _, [] => true
  | [], _ :: _ => false
  | c :: cs, p :: ps => c = p && startsWithChars cs ps

/-- Does the pattern `pat` occur as a contiguous run of the list? -/
def hasSubChars (pat : List Char) : List Char → Bool
  | [] => startsWithChars [] pat
  | c :: cs => startsWithChars (c :: cs) pat || hasSubChars pat cs

/-- Python's substring test `pat in s`. -/
def strContains (s pat : String) : Bool :=
  hasSubChars pat.data s.data

/-- ASCII lowercase of one character.  The protocol text is ASCII, so this
matches Python's `str.lower()` on every message that occurs. -/
def lowerChar (c : Char) : Char :=
  if c.toNat ≥ 65 && c.toNat ≤ 90 then Char.ofNat (c.toNat + 32) else c

/-- Python's `msg.lower()` (ASCII range). -/
def pyLower (s : String) : String :=
  String.mk (s.data.map lowerChar)

/-- `fut.set_result(msg)` on the future at index `fid` of the store. -/
def setResult (s : ConnState) (fid : Nat) (v : String) : ConnState :=
  { s with futures := s.futures.set fid (.resolved v) }

/-- The outcome of one `receive()` call: the connection state afterwards,
the returned value (`.ok`) or raised exception (`.error`), the logs
emitted, and the events passed to the event callback (in order). -/
structure RecvOut where
  state : ConnState
  result : Except PyError (Option String)
  logs : List LogEntry
  delivered : List AnovaEvent
deriving Repr

/-- Embedding of `AnovaConnection.receive` (connection.py lines 53-74).
`data` is the byte string returned by `await self.reader.read(1024)`;
`data = []` is a zero-length read (`if not data`). -/
def receive (env : Env) (s : ConnState) (data : List Nat) : RecvOut :=
  if data.length = 0 then
    { state := s, result := .error .connectionReset,
      logs := [.errorConnClosed], delivered := [] }
  else
    match env.decode data with
    | .error e => { state := s, result := .error e, logs := [], delivered := [] }
    | .ok msg =>
      if strContains (pyLower msg) "invalid command" then
        { state := s, result := .ok none,
          logs := [.debugReceived msg, .errorInvalidCommandSkipping msg],
          delivered := [] }
      else if env.is_event msg then
        if s.event_callback then
          match env.parse_event msg with
          | .error e =>
            { state := s, result := .error e,
              logs := [.debugReceived msg], delivered := [] }
          | .ok ev =>
            match env.callback ev with
            | .error e =>
              { state := s, result := .error e,
                logs := [.debugReceived msg], delivered := [ev] }
            | .ok _ =>
              { state := s, result := .ok (some msg),
                logs := [.debugReceived msg], delivered := [ev] }
        else
          { state := s, result := .ok (some msg),
            logs := [.debugReceived msg], delivered := [] }
      else
        match s.response_future with
        | some fid =>
          if (s.futures.getD fid .pending).isDone then
            { state := s, result := .ok (some msg),
              logs := [.debugReceived msg, .warnUnexpected msg], delivered := [] }
          else
            { state := setResult s fid msg, result := .ok (some msg),
              logs := [.debugReceived msg], delivered := [] }
        | none =>
          { state := s, result := .ok (some msg),
            logs := [.debugReceived msg, .warnUnexpected msg], delivered := [] }

/-- One element of the input trace driving the background loop: either the
bytes of one read, or a cancellation arriving at the read's await point. -/
inductive ListenInput
  | data (bytes : List Nat)
  | cancel
deriving DecidableEq, Repr

/-- How a finite run of the background loop ended. -/
inductive ListenOutcome
  | stillRunning
  | endedConnReset
  | endedCancelled
  | endedError (e : PyError)
deriving DecidableEq, Repr

/-- Embedding of `AnovaConnection._listen` (connection.py lines 42-51),
driven over a finite input trace: `while True: await self.receive()` with
`except ConnectionResetError` / `except asyncio.CancelledError` /
`except Exception` around the whole loop.  Returns the final state, the
logs, and how (whether) the loop ended. -/
def listenLoop (env : Env) (s : ConnState) :
    List ListenInput → ConnState × List LogEntry × ListenOutcome
  | [] => (s, [], .stillRunning)
  | .cancel :: _ => (s, [.debugCancelled], .endedCancelled)
  | .data d :: rest =>
    let r := receive env s d
    match r.result with
    | .ok _ =>
      let k := listenLoop env r.state rest
      (k.1, r.logs ++ k.2.1, k.2.2)
    | .error .connectionReset =>
      (r.state, r.logs ++ [.debugConnClosedRemote], .endedConnReset)
    | .error .cancelledError =>
      (r.state, r.logs ++ [.debugCancelled], .endedCancelled)
    | .error e =>
      (r.state, r.logs ++ [.errorInListen e], .endedError e)

/-- Decidable equality for `Except`, needed to evaluate worlds containing
finished `send_command` outcomes. -/
instance {e a : Type} [DecidableEq e] [DecidableEq a] : DecidableEq (Except e a) := fun x y =>
  match x, y with
  | .ok u, .ok v =>
    if h : u = v then .isTrue (by rw [h]) else .isFalse (by simp [h])
  | .error u, .error v =>
    if h : u = v then .isTrue (by rw [h]) else .isFalse (by simp [h])
  | .ok _, .error _ => .isFalse (by simp)
  | .error _, .ok _ => .isFalse (by simp)

/-- The await point a `send_command` coroutine is suspended at (or its
final outcome).  `inWaitFor f`: suspended in
`await asyncio.wait_for(self.response_future, timeout=10)`, where `f` is
the index of the future the call captured.  `inRetryAwait g`: the local
timeout fired, the warning was logged, and the coroutine re-read
`self.response_future` (obtaining the future at index `g`) and is awaiting
it.  `finished r`: the call returned (`.ok reply`) or raised (`.error`);
by the `finally` block, `self.response_future` was set to `None` on the way
out. -/
inductive SendPhase
  | inWaitFor (futId : Nat)
  | inRetryAwait (futId : Nat)
  | finished (r : Except PyError String)
deriving DecidableEq, Repr

/-- One `send_command(cmd)` execution. -/
structure SendProc where
  cmd : String
  phase : SendPhase
deriving DecidableEq, Repr

/-- The whole interleaved system: the shared connection state, the
`send_command` executions started so far (in start order), and the logs. -/
structure World where
  conn : ConnState
  procs : List SendProc
  log : List LogEntry
deriving DecidableEq, Repr

/-- A scheduler action (`SchedAction`): which coroutine makes its next step.
`startSend cmd` runs a new `send_command(cmd)` through its synchronous
prefix (encode, write, drain, create `asyncio.Future()`, assign it to
`self.response_future`) up to the suspension in `wait_for`.
`resumeWaitFor i` resumes process `i` when the future it waits on has been
resolved: `wait_for` returns the result and the `finally` clears the slot.
`fireTimeout i` fires the 10-second timer of process `i`'s `wait_for`
while its future is still pending: per `asyncio.wait_for` semantics the
future is cancelled and `TimeoutError` is raised; the `except` branch logs
the warning and re-reads `self.response_future` to await it (awaiting
`None` raises `TypeError`, which the `finally` lets propagate after
clearing the slot).  `resumeRetry i` resumes process `i`'s
`await self.response_future` once that future is done: a resolved future
yields its value, a cancelled one raises `CancelledError`; either way the
`finally` clears the slot.  `deliver d` runs one `receive` of the
background loop on bytes `d`.  An action not enabled in the current world
is a no-op. -/
inductive SchedAction
  | startSend (cmd : String)
  | resumeWaitFor (i : Nat)
  | fireTimeout (i : Nat)
  | resumeRetry (i : Nat)
  | deliver (d : List Nat)
deriving DecidableEq, Repr

/-- Small-step semantics of `AnovaConnection.send_command`
(connection.py lines 20-36) interleaved with the receive loop. -/
def step (env : Env) (w : World) : SchedAction → World
  | .startSend cmd =>
    let fid := w.conn.futures.length
    { conn := { w.conn with futures := w.conn.futures ++ [.pending],
                            response_future := some fid },
      procs := w.procs ++ [⟨cmd, .inWaitFor fid⟩],
      log := w.log ++ [.debugSent cmd] }
  | .resumeWaitFor i =>
    match w.procs[i]? with
    | some p =>
      match p.phase with
      | .inWaitFor f =>
        match w.conn.futures.getD f .pending with
        | .resolved v =>
          { conn := { w.conn with response_future := none },
            procs := w.procs.set i { p with phase := .finished (.ok v) },
            log := w.log }
        | _ => w
      | _ => w
    | none => w
  | .fireTimeout i =>
    match w.procs[i]? with
    | some p =>
      match p.phase with
      | .inWaitFor f =>
        match w.conn.futures.getD f .pending with
        | .pending =>
          let conn1 : ConnState :=
            { w.conn with futures := w.conn.futures.set f .cancelled }
          match conn1.response_future with
          | some g =>
            { conn := conn1,
              procs := w.procs.set i { p with phase := .inRetryAwait g },
              log := w.log ++ [.warnNoResponseTimeout p.cmd] }
          | none =>
            { conn := { conn1 with response_future := none },
              procs := w.procs.set i { p with phase := .finished (.error .typeError) },
              log := w.log ++ [.warnNoResponseTimeout p.cmd] }
        | _ => w
      | _ => w
    | none => w
  | .resumeRetry i =>
    match w.procs[i]? with
    | some p =>
      match p.phase with
      | .inRetryAwait g =>
        match w.conn.futures.getD g .pending with
        | .resolved v =>
          { conn := { w.conn with response_future := none },
            procs := w.procs.set i { p with phase := .finished (.ok v) },
            log := w.log }
        | .cancelled =>
          { conn := { w.conn with response_future := none },
            procs := w.procs.set i { p with phase := .finished (.error .cancelledError) },
            log := w.log }
        | .pending => w
      | _ => w
    | none => w
  | .deliver d =>
    let r := receive env w.conn d
    { conn := r.state, procs := w.procs, log := w.log ++ r.logs }

/-- Run a finite schedule of actions from a world. -/
def run (env : Env) (w : World) (acts : List SchedAction) : World :=
  acts.foldl (step env) w

/-- `true` when process `i` exists and its `send_command` call has
completed (returned or raised). -/
def finishedAt (w : World) (i : Nat) : Bool :=
  match w.procs[i]? with
  | some p =>
    match p.phase with
    | .finished _ => true
    | _ => false
  | none => false

/-- The status of the background task object held in `self.listen_task`:
still running, or terminated (whether by swallowing its cancellation or by
the loop body ending). -/
inductive TaskStatus
  | running
  | terminated
deriving DecidableEq, Repr

/-- The lifecycle attributes of an `AnovaConnection`: `listen_task` is
`None` until `start_listening` first runs, and `writer_closed` records
whether `self.writer.close()` has been called. -/
structure LifeState where
  listen_task : Option TaskStatus
  writer_closed : Bool
deriving DecidableEq, Repr

/-- Embedding of `AnovaConnection.start_listening` (connection.py lines
38-40): `if not self.listen_task: self.listen_task = asyncio.create_task(...)`.
A task object is always truthy, so any existing task (running or done)
makes the call a no-op.  The second component reports whether a new
background task was created. -/
def start_listening (s : LifeState) : LifeState × Bool :=
  match s.listen_task with
  | none => ({ s with listen_task := some .running }, true)
  | some _ => (s, false)

/-- The externally visible effects `close` performs, in order. -/
inductive CloseEffect
  | cancelTask
  | awaitTask
  | closeWriter
  | waitClosed
  | logClosed
deriving DecidableEq, Repr

/-- Embedding of `AnovaConnection.close` (connection.py lines 79-89):
if `self.listen_task` is set, cancel it and await it (a `CancelledError`
from the await is swallowed; either way the task has terminated when the
await returns), then close the writer and await `wait_closed`.  Total:
no path raises.  Returns the new state and the ordered effect trace. -/
def close (s : LifeState) : LifeState × List CloseEffect :=
  match s.listen_task with
  | some _ =>
    ({ listen_task := some .terminated, writer_closed := true },
     [.cancelTask, .awaitTask, .closeWriter, .waitClosed, .logClosed])
  | none =>
    ({ s with writer_closed := true },
     [.closeWriter, .waitClosed, .logClosed])

/-- Bytes of a message for the concrete test environment. -/
def bytesOf (s : String) : List Nat :=
  s.toList.map Char.toNat

/-- A concrete environment for evaluating the model: decoding reverses
`bytesOf`, no message is classified as an event, parsing and the callback
always succeed. -/
def env0 : Env where
  decode := fun d => .ok (String.mk (d.map Char.ofNat))
  is_event := fun _ => false
  parse_event := fun m => .ok ⟨m⟩
  callback := fun _ => .ok ()

/-- A fresh connection state: no futures created, empty waiter slot, no
event callback registered. -/
def conn0 : ConnState where
  futures := []
  response_future := none
  event_callback := false

/-- A fresh world: fresh connection, no `send_command` started, no logs. -/
def w0 : World where
  conn := conn0
  procs := []
  log := []

/-- `true` when the connection has no outstanding unresolved waiter: the
slot is empty, or the future in it is already done. -/
def noUnresolvedWaiter (s : ConnState) : Bool :=
  match s.response_future with
  | none => true
  | some fid => (s.futures.getD fid .pending).isDone

/-- C5: every decoded message containing the substring "invalid command"
case-insensitively is dropped by `receive` after logging: the state is
unchanged (no Pending Command Waiter is resolved), no event is delivered to
the callback, and the call returns `None`. -/
theorem receive_invalid_command_drop (env : Env) (s : ConnState) (data : List Nat)
    (msg : String) (hne : data ≠ []) (hdec : env.decode data = .ok msg)
    (hinv : strContains (pyLower msg) "invalid command" = true) :
    receive env s data =
      { state := s, result := .ok none,
        logs := [.debugReceived msg, .errorInvalidCommandSkipping msg],
        delivered := [] } := by
  simp [receive, List.length_eq_zero, hne, hdec, hinv]

/-- C5 witness: the message "Invalid Command: xyz" is dropped even while a
pending waiter is outstanding and an event callback is registered. -/
theorem receive_invalid_command_drop_witness :
    bytesOf "Invalid Command: xyz" ≠ [] ∧
    env0.decode (bytesOf "Invalid Command: xyz") = .ok "Invalid Command: xyz" ∧
    strContains (pyLower "Invalid Command: xyz") "invalid command" = true ∧
    receive env0 ⟨[.pending], some 0, true⟩ (bytesOf "Invalid Command: xyz") =
      { state := ⟨[.pending], some 0, true⟩, result := .ok none,
        logs := [.debugReceived "Invalid Command: xyz",
                 .errorInvalidCommandSkipping "Invalid Command: xyz"],
        delivered := [] } :=
  ⟨by decide, by decide, by decide,
   receive_invalid_command_drop env0 ⟨[.pending], some 0, true⟩
     (bytesOf "Invalid Command: xyz") "Invalid Command: xyz"
     (by decide) (by decide) (by decide)⟩

/-- C9: a decoded message classified as an event while no event callback is
registered is silently discarded by `receive`: nothing is delivered, no
unexpected-message warning is logged, the state is unchanged (an
outstanding waiter is not resolved), and the decoded message is still
returned. -/
theorem receive_event_without_callback (env : Env) (s : ConnState) (data : List Nat)
    (msg : String) (hne : data ≠ []) (hdec : env.decode data = .ok msg)
    (hinv : strContains (pyLower msg) "invalid command" = false)
    (hev : env.is_event msg = true) (hcb : s.event_callback = false) :
    receive env s data =
      { state := s, result := .ok (some msg),
        logs := [.debugReceived msg], delivered := [] } := by
  simp [receive, List.length_eq_zero, hne, hdec, hinv, hev, hcb]

/-- An environment whose classifier marks every message as an event and
whose callback succeeds, for exercising the event path. -/
def envEvt : Env where
  decode := fun d => .ok (String.mk (d.map Char.ofNat))
  is_event := fun _ => true
  parse_event := fun m => .ok ⟨m⟩
  callback := fun _ => .ok ()

/-- C9 witness: an event arriving with no callback registered and a pending
waiter outstanding is returned but routed nowhere, and the waiter stays
pending. -/
theorem receive_event_without_callback_witness :
    bytesOf "event 1" ≠ [] ∧
    envEvt.decode (bytesOf "event 1") = .ok "event 1" ∧
    strContains (pyLower "event 1") "invalid command" = false ∧
    envEvt.is_event "event 1" = true ∧
    ConnState.event_callback ⟨[.pending], some 0, false⟩ = false ∧
    receive envEvt ⟨[.pending], some 0, false⟩ (bytesOf "event 1") =
      { state := ⟨[.pending], some 0, false⟩, result := .ok (some "event 1"),
        logs := [.debugReceived "event 1"], delivered := [] } :=
  ⟨by decide, by decide, by decide, by decide, by decide,
   receive_event_without_callback envEvt ⟨[.pending], some 0, false⟩
     (bytesOf "event 1") "event 1" (by decide) (by decide) (by decide)
     (by decide) (by decide)⟩

/-- C10: an exception raised by the caller-supplied event callback is not
caught inside `receive`: `receive` raises it, and the background loop
(`_listen`) catches it as a generic error, logs it, and terminates, for any
continuation of the input trace — stopping all further delivery. -/
theorem callback_exception_stops_listen_loop (env : Env) (s : ConnState)
    (data : List Nat) (msg : String) (ev : AnovaEvent) (e : PyError)
    (hne : data ≠ []) (hdec : env.decode data = .ok msg)
    (hinv : strContains (pyLower msg) "invalid command" = false)
    (hev : env.is_event msg = true) (hcb : s.event_callback = true)
    (hparse : env.parse_event msg = .ok ev) (hfail : env.callback ev = .error e)
    (hr : e ≠ .connectionReset) (hc : e ≠ .cancelledError) :
    (receive env s data).result = .error e ∧
    ∀ rest, (listenLoop env s (.data data :: rest)).2.2 = .endedError e ∧
      .errorInListen e ∈ (listenLoop env s (.data data :: rest)).2.1 := by
  have hrecv : receive env s data =
      { state := s, result := .error e,
        logs := [.debugReceived msg], delivered := [ev] } := by
    simp [receive, List.length_eq_zero, hne, hdec, hinv, hev, hcb, hparse, hfail]
  refine ⟨by rw [hrecv], fun rest => ?_⟩
  cases e <;> simp_all [listenLoop]

/-- An environment whose classifier marks every message as an event and
whose callback always raises. -/
def envCbFail : Env where
  decode := fun d => .ok (String.mk (d.map Char.ofNat))
  is_event := fun _ => true
  parse_event := fun m => .ok ⟨m⟩
  callback := fun _ => .error .callbackError

/-- C10 witness: with a registered callback that raises, one event input
makes `receive` raise and ends the listen loop with the error logged. -/
theorem callback_exception_stops_listen_loop_witness :
    bytesOf "event 1" ≠ [] ∧
    envCbFail.decode (bytesOf "event 1") = .ok "event 1" ∧
    envCbFail.callback ⟨"event 1"⟩ = .error .callbackError ∧
    (receive envCbFail ⟨[], none, true⟩ (bytesOf "event 1")).result = .error .callbackError ∧
    (listenLoop envCbFail ⟨[], none, true⟩ [.data (bytesOf "event 1")]).2.2 =
      .endedError .callbackError ∧
    .errorInListen .callbackError ∈
      (listenLoop envCbFail ⟨[], none, true⟩ [.data (bytesOf "event 1")]).2.1 :=
  ⟨by decide, by decide, by decide,
   (callback_exception_stops_listen_loop envCbFail ⟨[], none, true⟩
      (bytesOf "event 1") "event 1" ⟨"event 1"⟩ .callbackError
      (by decide) (by decide) (by decide) (by decide) (by decide)
      (by decide) (by decide) (by decide) (by decide)).1,
   ((callback_exception_stops_listen_loop envCbFail ⟨[], none, true⟩
      (bytesOf "event 1") "event 1" ⟨"event 1"⟩ .callbackError
      (by decide) (by decide) (by decide) (by decide) (by decide)
      (by decide) (by decide) (by decide) (by decide)).2 []).1,
   ((callback_exception_stops_listen_loop envCbFail ⟨[], none, true⟩
      (bytesOf "event 1") "event 1" ⟨"event 1"⟩ .callbackError
      (by decide) (by decide) (by decide) (by decide) (by decide)
      (by decide) (by decide) (by decide) (by decide)).2 []).2⟩

/-- C8: `start_listening` is idempotent: on a connection with no task it
creates the background loop; while a task has already been started every
further call is a no-op that creates no second loop and raises nothing
(the function is total). -/
theorem start_listening_idempotent (s : LifeState) :
    (s.listen_task = none →
      start_listening s = ({ s with listen_task := some .running }, true)) ∧
    (∀ t, s.listen_task = some t → start_listening s = (s, false)) ∧
    start_listening (start_listening s).1 = ((start_listening s).1, false) := by
  obtain ⟨task, wc⟩ := s
  cases task <;> simp [start_listening]

/-- C8 witness: starting on a fresh connection creates the loop; the second
call is a no-op. -/
theorem start_listening_idempotent_witness :
    LifeState.listen_task ⟨none, false⟩ = none ∧
    start_listening ⟨none, false⟩ = (⟨some .running, false⟩, true) ∧
    start_listening (start_listening ⟨none, false⟩).1 =
      ((start_listening ⟨none, false⟩).1, false) :=
  ⟨rfl, (start_listening_idempotent ⟨none, false⟩).1 rfl,
   (start_listening_idempotent ⟨none, false⟩).2.2⟩

/-- C7: `close` on a connection with a background task cancels it, awaits
its termination, and only then closes the stream (the effect trace is
exactly cancel, await, close, wait-closed, log, in that order); with no
task it just closes the stream, raising nothing either way (the function
is total); and a second `close` leaves the state unchanged. -/
theorem close_contract (s : LifeState) :
    (close s).1.writer_closed = true ∧
    (s.listen_task = none →
      close s = ({ s with writer_closed := true },
                 [.closeWriter, .waitClosed, .logClosed])) ∧
    (∀ t, s.listen_task = some t →
      close s = (⟨some .terminated, true⟩,
                 [.cancelTask, .awaitTask, .closeWriter, .waitClosed, .logClosed])) ∧
    (close (close s).1).1 = (close s).1 := by
  obtain ⟨task, wc⟩ := s
  cases task <;> simp [close]

/-- C7 witness: closing with a running loop terminates it before the
stream close, and closing again changes nothing. -/
theorem close_contract_witness :
    LifeState.listen_task ⟨some .running, false⟩ = some .running ∧
    close ⟨some .running, false⟩ =
      (⟨some .terminated, true⟩,
       [.cancelTask, .awaitTask, .closeWriter, .waitClosed, .logClosed]) ∧
    (close (close ⟨some .running, false⟩).1).1 = (close ⟨some .running, false⟩).1 :=
  ⟨rfl, (close_contract ⟨some .running, false⟩).2.2.1 .running rfl,
   (close_contract ⟨some .running, false⟩).2.2.2⟩

/-- An environment whose decoder fails on every input, as the spec allows
for malformed bytes. -/
def envBadDecode : Env where
  decode := fun _ => .error .decodeError
  is_event := fun _ => false
  parse_event := fun m => .ok ⟨m⟩
  callback := fun _ => .ok ()

/-- C3 counterexample: a decode failure — a recoverable per-message error
in the claim's sense — terminates the background loop on a nonempty read
with no peer closure and no cancellation anywhere in the trace, so the
loop does not terminate only on closure or cancellation. -/
theorem listen_loop_ends_on_decode_failure :
    (listenLoop envBadDecode conn0 [.data [0]]).2.2 = .endedError .decodeError ∧
    .errorInListen .decodeError ∈ (listenLoop envBadDecode conn0 [.data [0]]).2.1 := by
  decide

/-- C3 as amended: the loop survives every message `receive` handles
internally (invalid-command notices, unexpected messages, routed replies
and events all return normally, and the loop then continues with the rest
of the trace); it ends quietly on peer closure or on cancellation; but on
any other exception escaping `receive` — a decode failure, an event-parse
failure, or a callback failure — it logs the error and terminates. -/
theorem listen_loop_termination (env : Env) (s : ConnState) (d : List Nat)
    (rest : List ListenInput) :
    (∀ m, (receive env s d).result = .ok m →
      listenLoop env s (.data d :: rest) =
        ((listenLoop env (receive env s d).state rest).1,
         (receive env s d).logs ++ (listenLoop env (receive env s d).state rest).2.1,
         (listenLoop env (receive env s d).state rest).2.2)) ∧
    ((receive env s d).result = .error .connectionReset →
      (listenLoop env s (.data d :: rest)).2.2 = .endedConnReset) ∧
    (∀ e, (receive env s d).result = .error e → e ≠ .connectionReset →
      e ≠ .cancelledError →
      (listenLoop env s (.data d :: rest)).2.2 = .endedError e ∧
      .errorInListen e ∈ (listenLoop env s (.data d :: rest)).2.1) ∧
    (listenLoop env s (.cancel :: rest)).2.2 = .endedCancelled := by
  refine ⟨fun m hm => ?_, fun hm => ?_, fun e hm hr hc => ?_, by simp [listenLoop]⟩
  · simp [listenLoop, hm]
  · simp [listenLoop, hm]
  · cases e <;> simp_all [listenLoop]

/-- C3 amended witness: an invalid-command notice does not end the loop
(the run continues with the rest of the trace), while a decode failure
ends it with the error logged. -/
theorem listen_loop_termination_witness :
    (receive env0 conn0 (bytesOf "invalid command")).result = .ok none ∧
    listenLoop env0 conn0 [.data (bytesOf "invalid command")] =
      ((listenLoop env0 (receive env0 conn0 (bytesOf "invalid command")).state []).1,
       (receive env0 conn0 (bytesOf "invalid command")).logs ++
         (listenLoop env0 (receive env0 conn0 (bytesOf "invalid command")).state []).2.1,
       (listenLoop env0 (receive env0 conn0 (bytesOf "invalid command")).state []).2.2) ∧
    (receive envBadDecode conn0 [0]).result = .error .decodeError ∧
    (listenLoop envBadDecode conn0 [.data [0]]).2.2 = .endedError .decodeError :=
  ⟨by decide,
   (listen_loop_termination env0 conn0 (bytesOf "invalid command") []).1 none (by decide),
   by decide,
   ((listen_loop_termination envBadDecode conn0 [0] []).2.2.1 .decodeError
      (by decide) (by decide) (by decide)).1⟩

/-- Helper: once a nonempty read decodes to a message that is not an
invalid-command notice, `receive` never returns `None`: every remaining
branch returns the message or raises. -/
theorem receive_none_only_when_invalid (env : Env) (s : ConnState) (data : List Nat)
    (msg : String) (hne : data ≠ []) (hdec : env.decode data = .ok msg)
    (hinv : strContains (pyLower msg) "invalid command" = false) :
    (receive env s data).result ≠ .ok none := by
  simp only [receive, List.length_eq_zero, hne, if_false, hdec, hinv,
    Bool.false_eq_true, reduceIte]
  split
  · split
    · split
      · simp
      · split <;> simp
    · simp
  · split
    · split <;> simp
    · simp

/-- C4: `receive` on a zero-length read raises a connection-closed signal;
on a read that decodes to `msg` it performs one classify-route cycle: an
invalid-command notice is dropped (returning `None`, and `None` is returned
in no other case); a reply finding no outstanding unresolved waiter is
logged as unexpected and discarded with the state unchanged (not buffered);
a reply finding a pending waiter resolves exactly that waiter; and in each
routed case the decoded message is returned. -/
theorem receive_contract (env : Env) (s : ConnState) (data : List Nat) :
    (data = [] →
      receive env s data =
        { state := s, result := .error .connectionReset,
          logs := [.errorConnClosed], delivered := [] }) ∧
    (∀ msg, data ≠ [] → env.decode data = .ok msg →
      (strContains (pyLower msg) "invalid command" = true →
        receive env s data =
          { state := s, result := .ok none,
            logs := [.debugReceived msg, .errorInvalidCommandSkipping msg],
            delivered := [] }) ∧
      ((receive env s data).result = .ok none →
        strContains (pyLower msg) "invalid command" = true) ∧
      (strContains (pyLower msg) "invalid command" = false →
        env.is_event msg = false → noUnresolvedWaiter s = true →
        receive env s data =
          { state := s, result := .ok (some msg),
            logs := [.debugReceived msg, .warnUnexpected msg],
            delivered := [] }) ∧
      (∀ fid, strContains (pyLower msg) "invalid command" = false →
        env.is_event msg = false → s.response_future = some fid →
        (s.futures.getD fid .pending).isDone = false →
        receive env s data =
          { state := setResult s fid msg, result := .ok (some msg),
            logs := [.debugReceived msg], delivered := [] })) := by
  refine ⟨fun h => by simp [receive, h], fun msg hne hdec => ⟨fun hinv => ?_, fun hnone => ?_, fun hinv hev hno => ?_, fun fid hinv hev hslot hdone => ?_⟩⟩
  · simp [receive, List.length_eq_zero, hne, hdec, hinv]
  · by_contra hinv
    rw [Bool.not_eq_true] at hinv
    exact receive_none_only_when_invalid env s data msg hne hdec hinv hnone
  · unfold noUnresolvedWaiter at hno
    rcases hslot : s.response_future with _ | fid
    · simp [receive, List.length_eq_zero, hne, hdec, hinv, hev, hslot]
    · simp only [hslot, List.getD_eq_getElem?_getD] at hno
      simp [receive, List.length_eq_zero, hne, hdec, hinv, hev, hslot, hno]
  · rw [List.getD_eq_getElem?_getD] at hdone
    simp [receive, List.length_eq_zero, hne, hdec, hinv, hev, hslot, hdone]

/-- C4 witness: a zero-length read raises; a reply that finds the waiter
slot empty is logged as unexpected and leaves the state unchanged; a reply
finding a pending waiter resolves it and is returned. -/
theorem receive_contract_witness :
    receive env0 conn0 [] =
      { state := conn0, result := .error .connectionReset,
        logs := [.errorConnClosed], delivered := [] } ∧
    (bytesOf "reply" ≠ [] ∧ env0.decode (bytesOf "reply") = .ok "reply" ∧
     noUnresolvedWaiter conn0 = true ∧
     receive env0 conn0 (bytesOf "reply") =
       { state := conn0, result := .ok (some "reply"),
         logs := [.debugReceived "reply", .warnUnexpected "reply"],
         delivered := [] }) ∧
    (ConnState.response_future ⟨[.pending], some 0, false⟩ = some 0 ∧
     receive env0 ⟨[.pending], some 0, false⟩ (bytesOf "reply") =
       { state := setResult ⟨[.pending], some 0, false⟩ 0 "reply",
         result := .ok (some "reply"),
         logs := [.debugReceived "reply"], delivered := [] }) :=
  ⟨(receive_contract env0 conn0 []).1 rfl,
   ⟨by decide, by decide, by decide,
    ((receive_contract env0 conn0 (bytesOf "reply")).2 "reply" (by decide)
        (by decide)).2.2.1 (by decide) (by decide) (by decide)⟩,
   ⟨rfl,
    ((receive_contract env0 ⟨[.pending], some 0, false⟩ (bytesOf "reply")).2 "reply"
        (by decide) (by decide)).2.2.2 0 (by decide) (by decide) (by decide)
        (by decide)⟩⟩

/-- Helper: whether a process is finished depends only on the process list. -/
theorem finishedAt_eq_of_procs_eq {w w' : World} (i : Nat) (h : w'.procs = w.procs) :
    finishedAt w' i = finishedAt w i := by
  simp only [finishedAt, h]

/-- Helper: every scheduler step either is a no-op, leaves the waiter slot
empty, moves one process to its retry await, appends a fresh waiting
process, or leaves the process list unchanged. -/
theorem step_slot_cases (env : Env) (w : World) (a : SchedAction) :
    step env w a = w ∨
    (step env w a).conn.response_future = none ∨
    (∃ j p g, w.procs[j]? = some p ∧
      (step env w a).procs = w.procs.set j { cmd := p.cmd, phase := .inRetryAwait g }) ∨
    (∃ cmd, (step env w a).procs =
      w.procs ++ [⟨cmd, .inWaitFor w.conn.futures.length⟩]) ∨
    (step env w a).procs = w.procs := by
  cases a with
  | startSend cmd =>
    right; right; right; left
    exact ⟨cmd, rfl⟩
  | deliver d =>
    right; right; right; right
    rfl
  | resumeWaitFor j =>
    simp only [step]
    rcases hp : w.procs[j]? with _ | p
    · left; rfl
    · dsimp only
      rcases hph : p.phase with f | g | r
      · dsimp only
        rcases hf : w.conn.futures.getD f .pending with _ | v
        · left; rfl
        · right; left; rfl
        · left; rfl
      · left; rfl
      · left; rfl
  | fireTimeout j =>
    simp only [step]
    rcases hp : w.procs[j]? with _ | p
    · left; rfl
    · dsimp only
      rcases hph : p.phase with f | g | r
      · dsimp only
        rcases hf : w.conn.futures.getD f .pending with _ | v
        · dsimp only
          rcases hrf : w.conn.response_future with _ | g2
          · right; left; rfl
          · right; right; left
            exact ⟨j, p, g2, hp, rfl⟩
        · left; rfl
        · left; rfl
      · left; rfl
      · left; rfl
  | resumeRetry j =>
    simp only [step]
    rcases hp : w.procs[j]? with _ | p
    · left; rfl
    · dsimp only
      rcases hph : p.phase with f | g | r
      · left; rfl
      · dsimp only
        rcases hf : w.conn.futures.getD g .pending with _ | v
        · left; rfl
        · right; left; rfl
        · right; left; rfl
      · left; rfl

/-- C6: whatever scheduler step completes a `send_command` execution —
normal reply, timeout-then-resolution, or an exception (`CancelledError`
from the cancelled future, `TypeError` from awaiting an emptied slot) —
that same step leaves the waiter slot `response_future` empty: the
`finally` block clears it on every exit path. -/
theorem send_command_finally_clears_slot (env : Env) (w : World) (a : SchedAction)
    (i : Nat) (h1 : finishedAt w i = false) (h2 : finishedAt (step env w a) i = true) :
    (step env w a).conn.response_future = none := by
  rcases step_slot_cases env w a with hw | hslot | ⟨j, p, g, hp, hset⟩ | ⟨cmd, happ⟩ | hsame
  · rw [hw] at h2
    rw [h2] at h1
    exact absurd h1 (by simp)
  · exact hslot
  · exfalso
    simp only [finishedAt, hset] at h2
    simp only [finishedAt] at h1
    rw [List.getElem?_set] at h2
    by_cases hij : j = i
    · subst hij
      rw [if_pos rfl] at h2
      by_cases hlen : j < w.procs.length
      · rw [if_pos hlen] at h2
        simp at h2
      · rw [if_neg hlen] at h2
        simp at h2
    · rw [if_neg hij] at h2
      rw [h2] at h1
      exact absurd h1 (by simp)
  · exfalso
    simp only [finishedAt, happ] at h2
    simp only [finishedAt] at h1
    rcases Nat.lt_trichotomy i w.procs.length with hlt | heq | hgt
    · rw [List.getElem?_append_left hlt] at h2
      rw [h2] at h1
      exact absurd h1 (by simp)
    · subst heq
      rw [List.getElem?_concat_length] at h2
      simp at h2
    · rw [List.getElem?_append_right (Nat.le_of_lt hgt)] at h2
      rw [List.getElem?_eq_none (by simp; omega)] at h2
      simp at h2
  · exfalso
    rw [finishedAt_eq_of_procs_eq i hsame] at h2
    rw [h2] at h1
    exact absurd h1 (by simp)

/-- C6 witness: a `send_command` whose reply was delivered finishes on its
resume step, and that step leaves the slot empty. -/
theorem send_command_finally_clears_slot_witness :
    finishedAt (run env0 w0 [.startSend "c", .deliver (bytesOf "r")]) 0 = false ∧
    finishedAt
      (step env0 (run env0 w0 [.startSend "c", .deliver (bytesOf "r")])
        (.resumeWaitFor 0)) 0 = true ∧
    (step env0 (run env0 w0 [.startSend "c", .deliver (bytesOf "r")])
        (.resumeWaitFor 0)).conn.response_future = none :=
  ⟨by decide, by decide,
   send_command_finally_clears_slot env0
     (run env0 w0 [.startSend "c", .deliver (bytesOf "r")]) (.resumeWaitFor 0) 0
     (by decide) (by decide)⟩

/-- C1 (code bug): run `send_command("status")`, let the local timeout
elapse, then deliver the reply.  `asyncio.wait_for` cancelled the future
when it timed out, so the `return await self.response_future` in the
`except` branch — the code's "continue waiting" path — raises
`CancelledError` immediately instead of waiting, and the reply delivered
after the timeout is routed nowhere: `receive` finds the slot's future
already done and logs the reply as unexpected.  The call therefore raises
rather than returning the late reply. -/
theorem timeout_then_late_reply_is_lost :
    (run env0 w0
      [.startSend "status", .fireTimeout 0, .deliver (bytesOf "ok"),
       .resumeRetry 0]).procs =
      [⟨"status", .finished (.error .cancelledError)⟩] ∧
    .warnUnexpected "ok" ∈
      (run env0 w0
        [.startSend "status", .fireTimeout 0, .deliver (bytesOf "ok"),
         .resumeRetry 0]).log := by
  constructor
  · decide
  · decide

/-- C2 (code bug): a second `send_command("B")` issued while
`send_command("A")` is outstanding silently overwrites the waiter slot —
after the two starts the slot holds the second future while the first is
still pending and now unreachable — and in the interleaving where A's
timeout fires before the reply to B arrives, A re-reads the slot, awaits
B's future, and returns the reply `"R"` that belongs to B's command:
the first caller's result is swapped, not rejected or serialized. -/
theorem second_send_overwrites_waiter :
    (run env0 w0 [.startSend "A", .startSend "B"]).conn.response_future = some 1 ∧
    (run env0 w0 [.startSend "A", .startSend "B"]).conn.futures =
      [.pending, .pending] ∧
    (run env0 w0
      [.startSend "A", .startSend "B", .fireTimeout 0, .deliver (bytesOf "R"),
       .resumeRetry 0, .resumeWaitFor 1]).procs =
      [⟨"A", .finished (.ok "R")⟩, ⟨"B", .finished (.ok "R")⟩] := by
  refine ⟨by decide, by decide, by decide⟩
